import Mathlib

/-!
Verification development for the conversational-router server
(`server-python/`).  Python strings are embedded as `List Char`; every
operation the source uses (`in`, `split("\n")`, `startswith`, `replace`,
`strip`, `lower`, `isalnum`, truthiness) is given an executable,
structurally recursive model, and each agent's `process` method becomes a
pure function from its state and the external oracle's reply text to a
result and successor state.  A Python exception (the `IndexError` reachable
in `ApplianceAgent.process`) is modelled with `Except`, the error carrying
the state as mutated up to the raise point, since Python mutations persist.
-/

/-- Python `str`, embedded as a list of characters. -/
abbrev Str := List Char

/-- ASCII lower-casing of one character (Python `str.lower`, restricted to
the ASCII range that the repository's string constants use). -/
def lcChar (c : Char) : Char :=
  if 'A' ≤ c ∧ c ≤ 'Z' then Char.ofNat (c.toNat + 32) else c

/-- Python `s.lower()`. -/
def lower (s : Str) : Str := s.map lcChar

/-- The whitespace characters Python `str.strip()` removes. -/
def isWsChar (c : Char) : Bool :=
  c = ' ' || c = '\t' || c = '\n' || c = '\r' || c = '\x0b' || c = '\x0c'

/-- Python `s.strip()`. -/
def trim (s : Str) : Str :=
  ((s.dropWhile isWsChar).reverse.dropWhile isWsChar).reverse

/-- Python `pat in s` (contiguous substring containment). -/
def hasSub (pat : Str) : Str → Bool
  | [] => List.isPrefixOf pat []
  | c :: rest => List.isPrefixOf pat (c :: rest) || hasSub pat rest

/-- Python `s.split("\n")`: `""` splits to `[""]`, separators are dropped,
empty segments kept. -/
def splitNl : Str → List Str
  | [] => [[]]
  | c :: cs =>
    if c = '\n' then [] :: splitNl cs
    else
      match splitNl cs with
      | [] => [[c]]
      | l :: ls => (c :: l) :: ls

/-- Fuel-indexed worker for `replaceSub`; the fuel starts at the string's
length, which bounds the number of steps. -/
def replaceAux (pat rep : Str) : Nat → Str → Str
  | 0, s => s
  | n + 1, s =>
    if pat ≠ [] ∧ List.isPrefixOf pat s then
      rep ++ replaceAux pat rep n (s.drop pat.length)
    else
      match s with
      | [] => []
      | c :: rest => c :: replaceAux pat rep n rest

/-- Python `s.replace(pat, rep)`: every non-overlapping occurrence,
left to right. -/
def replaceSub (s pat rep : Str) : Str := replaceAux pat rep s.length s

/-- Python `c.isalnum()` on the ASCII range. -/
def isAlnumCh (c : Char) : Bool :=
  ('0' ≤ c && c ≤ '9') || ('a' ≤ c && c ≤ 'z') || ('A' ≤ c && c ≤ 'Z')

/-- Python truthiness of an optional string (`None` and `""` are falsy). -/
def optTruthy : Option Str → Bool
  | none => false
  | some s => !s.isEmpty

/-- Python `f"{x}"` on an optional string: `None` prints as `"None"`. -/
def optStr : Option Str → Str
  | none => "None".data
  | some s => s

/-- One entry of a conversation history (`{"role": …, "content": …}`). -/
structure Msg where
  role : Str
  content : Str
deriving DecidableEq, Repr

def userRole : Str := "user".data

def assistantRole : Str := "assistant".data

/-! ### `agents/appliance_agent.py`: `ApplianceAgent` -/

/-- The mutable fields of an `ApplianceAgent` instance: its constructor
argument `appliance_type`, `self.model_number`, and the
`conversation_history` inherited from `BaseAgent`. -/
structure AgentState where
  appliance_type : Str
  model_number : Option Str
  conversation_history : List Msg
deriving DecidableEq, Repr

/-- `BaseAgent.add_to_history`. -/
def addMsg (st : AgentState) (role content : Str) : AgentState :=
  { st with conversation_history := st.conversation_history ++ [⟨role, content⟩] }

/-- The keys of the dict returned by `ApplianceAgent.process` on the
`complete` branches, beyond `response` and `complete`. -/
structure Payload where
  model_number : Option Str
  help_needed : Str
  details : Str
  appliance_type : Str
deriving DecidableEq, Repr

/-- The dict returned by `ApplianceAgent.process`: `payload = none` models
the branches that return only `response`/`complete`. -/
structure ProcResult where
  response : Str
  complete : Bool
  payload : Option Payload
deriving DecidableEq, Repr

def mdlLabel : Str := "MODEL:".data

def helpLabel : Str := "HELP:".data

def detLabel : Str := "DETAILS:".data

/-- The first line of `result` starting with `label`
(`[line for line in result.split("\n") if line.startswith(label)][0]`,
as an `Option` so the caller can model the `IndexError`). -/
def firstLabeledLine (label result : Str) : Option Str :=
  ((splitNl result).filter fun l => List.isPrefixOf label l).head?

/-- `line.replace(label, "").strip()`. -/
def lineValue (label line : Str) : Str := trim (replaceSub line label [])

/-- The literal denylist of `ApplianceAgent.process` line 89. -/
def denylist : List Str := ["n/a".data, "unknown".data, "none".data, []]

/-- The validation test of `ApplianceAgent.process` line 89: `True` means
the extracted model number is rejected. -/
def rejectModel (mn : Str) : Bool :=
  denylist.contains (lower mn) || Nat.blt mn.length 4 || !(mn.any isAlnumCh)

/-- The deterministic keyword matcher of `ApplianceAgent.process`
lines 135-150, applied to the raw current-turn query. -/
def keywordMatch (query : Str) : Option (Str × Str) :=
  let ql := lower query
  if hasSub ("manual".data) ql || hasSub ("guide".data) ql then
    some ("manual".data, "General product manual and care guide".data)
  else if hasSub ("part".data) ql then
    some ("parts".data, "Part information and replacement".data)
  else if hasSub ("problem".data) ql || hasSub ("symptom".data) ql
      || hasSub ("issue".data) ql || hasSub ("error".data) ql then
    some ("symptoms".data, "Troubleshooting and problem resolution".data)
  else if hasSub ("install".data) ql || hasSub ("setup".data) ql then
    some ("installation".data, "Installation and setup instructions".data)
  else none

def servicesList : Str :=
  ("1. Want the product manual or care guide\n2. Help searching a part for their product model\n3. Looking for help with a problem/symptoms in the product\n4. Looking for installation information").data

def introMsg (ap : Str) : Str :=
  "I can help you with your ".data ++ ap
    ++ ". Could you please provide your appliance's model number? It's usually found on a label inside the appliance.".data

def invalidMsg (ap : Str) : Str :=
  "That doesn't appear to be a valid model number. Could you please double-check the model number on your appliance? It's usually found on a label inside the ".data
    ++ ap ++ ".".data

def servicesMsg (ap : Str) : Str :=
  "Thank you. Here are the services I can provide for your ".data ++ ap ++ ":\n".data
    ++ servicesList ++ "\n\nWhat kind of help do you need?".data

def askModelMsg (ap : Str) : Str :=
  "Could you please provide your ".data ++ ap
    ++ "'s model number? It's usually found on a label inside the appliance.".data

def completeMsg (mn : Option Str) (h d : Str) : Str :=
  "I'll help you find ".data ++ h ++ " information for model ".data ++ optStr mn
    ++ ". Specifically about: ".data ++ d

def servicesMsg2 : Str :=
  "What kind of help do you need? Here are the services I can provide:\n".data ++ servicesList

/-- The `self.add_to_history("assistant", msg); return {...}` pattern every
returning branch of `ApplianceAgent.process` follows. -/
def reply (st : AgentState) (msg : Str) (complete : Bool) (payload : Option Payload) :
    ProcResult × AgentState :=
  (⟨msg, complete, payload⟩, addMsg st assistantRole msg)

/-- Lines 108-168 of `ApplianceAgent.process` (reached both when no
`MODEL:` substring occurs and after a valid model number was stored with a
`HELP:` substring present).  `st1` already holds the appended user message
and any model number stored this turn. -/
def afterModel (st1 : AgentState) (query result : Str) :
    Except AgentState (ProcResult × AgentState) :=
  if hasSub mdlLabel result && hasSub helpLabel result && hasSub detLabel result then
    match firstLabeledLine helpLabel result with
    | none => .error st1
    | some hl =>
      match firstLabeledLine detLabel result with
      | none => .error st1
      | some dl =>
        let h := lineValue helpLabel hl
        let d := lineValue detLabel dl
        .ok (reply st1 (completeMsg st1.model_number h d) true
          (some ⟨st1.model_number, h, d, st1.appliance_type⟩))
  else if !(hasSub mdlLabel result) then
    .ok (reply st1 (askModelMsg st1.appliance_type) false none)
  else if optTruthy st1.model_number then
    match keywordMatch query with
    | some (h, d) =>
      .ok (reply st1 (completeMsg st1.model_number h d) true
        (some ⟨st1.model_number, h, d, st1.appliance_type⟩))
    | none => .ok (reply st1 servicesMsg2 false none)
  else .ok (reply st1 servicesMsg2 false none)

/-- `ApplianceAgent.process`.  `oracleRaw` is the text the external
text-generation call would return for this turn (unused on the first-turn
branch, which makes no such call).  `.error st` models the `IndexError`
raised by indexing `[0]` into an empty list of label-prefixed lines, with
`st` the agent state as mutated before the raise. -/
def applianceProcess (st : AgentState) (query oracleRaw : Str) :
    Except AgentState (ProcResult × AgentState) :=
  let st0 := addMsg st userRole query
  if st0.conversation_history.length == 1 then
    .ok (reply st0 (introMsg st0.appliance_type) false none)
  else
    let result := trim oracleRaw
    if hasSub mdlLabel result then
      match firstLabeledLine mdlLabel result with
      | none => .error st0
      | some ml =>
        let mn := lineValue mdlLabel ml
        if rejectModel mn then
          .ok (reply st0 (invalidMsg st0.appliance_type) false none)
        else
          let st1 := { st0 with model_number := some mn }
          if hasSub helpLabel result then afterModel st1 query result
          else .ok (reply st1 (servicesMsg st1.appliance_type) false none)
    else afterModel st0 query result

/-! ### `agents/appliance_agent.py`: `FallbackAgent` (the one `main.py` imports) -/

/-- The state of the `FallbackAgent` defined in `appliance_agent.py`: only
the inherited conversation history. -/
structure FbAgentState where
  conversation_history : List Msg
deriving DecidableEq, Repr

/-- `FallbackAgent.process` from `appliance_agent.py`: one text-generation
call on the raw query, whose trimmed reply is appended as an assistant
message and returned; the user query itself is never added to the history
and there is no structural branching. -/
def fallbackAgentProcess (st : FbAgentState) (fallbackReply : Str) : Str × FbAgentState :=
  let result := trim fallbackReply
  (result, { conversation_history := st.conversation_history ++ [⟨assistantRole, result⟩] })

/-! ### `agents/fallback_agent.py`: `ConversationState` and `FallbackAgent` -/

/-- `fallback_agent.ConversationState`. -/
structure ConvState where
  appliance_type : Option Str
  model_number : Option Str
  last_valid_menu : Option Str
  conversation_history : List Msg
deriving DecidableEq, Repr

def freshConvState : ConvState := ⟨none, none, none, []⟩

/-- The input dict of `fallback_agent.FallbackAgent.process`: `apIn`/`mnIn`
are `none` when the `appliance_type`/`model_number` key is absent, and
`some v` when the key is present with (possibly `None`) value `v`. -/
structure Fb2Input where
  query : Str
  apIn : Option (Option Str)
  mnIn : Option (Option Str)
deriving DecidableEq, Repr

/-- The dict returned by `fallback_agent.FallbackAgent.process`: the
response, the partial `state` update (each field `none` when its key is
absent from the returned `state` dict), and the number of text-generation
calls the branch made. -/
structure Fb2Output where
  response : Str
  stateAp : Option Str
  stateMn : Option Str
  stateMenu : Option Str
  llmCalls : Nat
deriving DecidableEq, Repr

def fb2Menu (ap : Str) : Str :=
  "Thank you. Here are the services I can provide for your ".data ++ ap ++ ":\n".data
    ++ servicesList ++ "\nWhat kind of help do you need?".data

def fb2AskModelMsg : Str :=
  "Could you please provide your appliance's model number? It's usually found on a label inside the appliance.".data

def fb2RedirectMsg : Str :=
  "I specialize in helping with refrigerators and dishwashers. Which appliance do you need help with?".data

/-- Assoc-list update (insert or replace) for keyed stores. -/
def setAssoc {α : Type} (cs : List (Str × α)) (sid : Str) (v : α) : List (Str × α) :=
  match cs with
  | [] => [(sid, v)]
  | (k, w) :: rest => if k = sid then (k, v) :: rest else (k, w) :: setAssoc rest sid v

/-- The per-session state of `fallback_agent.FallbackAgent.process` after
`_get_or_create_state`, the two `if "…" in input_data` updates, and the
user-message append, i.e. the state the branch conditions inspect. -/
def fb2Merged (states : List (Str × ConvState)) (sid : Str) (inp : Fb2Input) : ConvState :=
  let st0 := (states.lookup sid).getD freshConvState
  let st1 := match inp.apIn with
    | none => st0
    | some v => { st0 with appliance_type := v }
  let st2 := match inp.mnIn with
    | none => st1
    | some v => { st1 with model_number := v }
  { st2 with conversation_history := st2.conversation_history ++ [⟨userRole, inp.query⟩] }

/-- `fallback_agent.FallbackAgent.process`: pure state lookup with three
structural branches and no text-generation call on any of them. -/
def fb2Process (states : List (Str × ConvState)) (sid : Str) (inp : Fb2Input) :
    Fb2Output × List (Str × ConvState) :=
  let st := fb2Merged states sid inp
  let states1 := setAssoc states sid st
  if optTruthy st.appliance_type && optTruthy st.model_number then
    let response := fb2Menu (optStr st.appliance_type)
    (⟨response, st.appliance_type, st.model_number, some response, 0⟩, states1)
  else if optTruthy st.appliance_type && !optTruthy st.model_number then
    (⟨fb2AskModelMsg, st.appliance_type, none, none, 0⟩, states1)
  else
    (⟨fb2RedirectMsg, none, none, none, 0⟩, states1)

/-! ### `agents/orchestrator.py`: `Orchestrator1` and `Orchestrator2` -/

def validCategories : List Str := ["refrigerator".data, "dishwasher".data, "other".data]

/-- `Orchestrator1.process`, as a function of the classifier oracle's reply
text: trim, lower-case, and map anything outside the closed label set to
`other`. -/
def classify (oracleReply : Str) : Str :=
  let category := lower (trim oracleReply)
  if validCategories.contains category then category else "other".data

def validHelpTypes : List Str :=
  ["manual".data, "parts".data, "symptoms".data, "installation".data]

def partKeywords : List Str :=
  ["part".data, "filter".data, "shelf".data, "drawer".data, "bin".data, "replacement".data]

/-- `Orchestrator2.create_model_url`. -/
def createModelUrl (model_number : Str) : Str :=
  "https://www.partselect.com/Models/".data ++ replaceSub (trim model_number) (" ".data) []

/-- Lines 118-135 of `Orchestrator2.process`: trim and lower the oracle
reply, delete every `response:` occurrence, re-trim, then validate against
the closed label set with the part-keyword/`manual` defaulting. -/
def resolveHelpType (help_needed oracleReply : Str) : Str :=
  let ht0 := lower (trim oracleReply)
  let ht1 := trim (replaceSub ht0 ("response:".data) [])
  if validHelpTypes.contains ht1 then ht1
  else if partKeywords.any fun w => hasSub w (lower help_needed) then "parts".data
  else "manual".data

/-- The routed result dict of `Orchestrator2.process`. -/
structure O2Routed where
  help_type : Str
  base_url : Str
  help_needed : Str
  details : Str
  model_number : Str
  appliance_type : Str
deriving DecidableEq, Repr

/-- The two shapes `Orchestrator2.process` returns: the missing-field
fallback dict (which carries no `help_type` key) or a routed decision. -/
inductive O2Out where
  | fb (appliance_type model_number : Str) (last_valid_menu : Option Str)
  | routed (r : O2Routed)
deriving DecidableEq, Repr

/-- The hardcoded `last_valid_menu` text of `Orchestrator2.process`. -/
def o2MenuText : Str :=
  "Thank you. Here are the services I can provide for your refrigerator:\n".data
    ++ servicesList ++ "\nWhat kind of help do you need?".data

/-- `Orchestrator2.process`, as a function of its input fields and the
oracle's reply text. -/
def orchestrator2Process (model_number help_needed details appliance_type oracleReply : Str) :
    O2Out :=
  if model_number.isEmpty || help_needed.isEmpty then
    .fb appliance_type model_number (if model_number.isEmpty then none else some o2MenuText)
  else
    .routed ⟨resolveHelpType help_needed oracleReply, createModelUrl model_number,
      help_needed, details, model_number, appliance_type⟩

/-- The `help_type` of a routed decision, `none` on the fallback dict
(where reading `result["help_type"]` would raise `KeyError`). -/
def o2HelpTypeOf : O2Out → Option Str
  | .fb _ _ _ => none
  | .routed r => some r.help_type

/-! ### `main.py`: session store and `chat_endpoint` -/

/-- One value of the module-level `conversation_state` dict. -/
structure SessionState where
  current_agent : Option Str
  category : Option Str
  model_number : Option Str
  help_type : Option Str
deriving DecidableEq, Repr

/-- The dict a session is (re)initialised to (`main.py` lines 80-85 and
127-132). -/
def freshSession : SessionState := ⟨none, none, none, none⟩

/-- The module-level mutable state of `main.py`: the `conversation_state`
dict and the singleton agent instances shared by every request. -/
structure GlobalState where
  conversation_state : List (Str × SessionState)
  refrigerator_agent : AgentState
  dishwasher_agent : AgentState
  fallback_agent : FbAgentState
deriving DecidableEq, Repr

/-- The module state right after startup: empty session dict, agents with
empty histories and no stored model numbers. -/
def initGlobal : GlobalState :=
  ⟨[], ⟨"refrigerator".data, none, []⟩, ⟨"dishwasher".data, none, []⟩, ⟨[]⟩⟩

def setApplianceAgent (g : GlobalState) (isRefrigerator : Bool) (ag : AgentState) : GlobalState :=
  if isRefrigerator then { g with refrigerator_agent := ag }
  else { g with dishwasher_agent := ag }

def apologyMsg : Str :=
  "Sorry, I encountered an error while processing your request. Please try again.".data

def closingSuffix : Str :=
  "\n\nIs there anything else I can help you with?".data

/-- Lines 90-143 of `chat_endpoint`: the branch continuing an active
appliance dialogue, including the `Orchestrator2` dispatch, the help-agent
call (whose external response text is `helpReply`), and the session reset.
A raise inside `ApplianceAgent.process`, or the `KeyError` from reading
`help_type` off the fallback dict, is caught by the endpoint's `except`
and becomes the fixed apology; agent mutations made before the raise
persist. -/
def continueConversation (g : GlobalState) (session_id : Str) (state : SessionState)
    (userQuery extractReply orc2Reply helpReply : Str) : Str × GlobalState :=
  let isRefrigerator := state.category == some ("refrigerator".data)
  let ag := if isRefrigerator then g.refrigerator_agent else g.dishwasher_agent
  match applianceProcess ag userQuery extractReply with
  | .error ag1 => (apologyMsg, setApplianceAgent g isRefrigerator ag1)
  | .ok (res, ag1) =>
    let g1 := setApplianceAgent g isRefrigerator ag1
    if !res.complete then (res.response, g1)
    else
      match res.payload with
      | none => (res.response, g1)
      | some p =>
        match orchestrator2Process (p.model_number.getD []) p.help_needed p.details
            (state.category.getD []) orc2Reply with
        | .fb _ _ _ => (apologyMsg, g1)
        | .routed r =>
          if validHelpTypes.contains r.help_type then
            (helpReply ++ closingSuffix,
              { g1 with conversation_state :=
                  setAssoc g1.conversation_state session_id freshSession })
          else (res.response, g1)

/-- Lines 146-179 of `chat_endpoint`: classify, store the category, and
either run the fallback agent (category `other`) or bind and start the
appliance agent for the very first turn of the cycle. -/
def startConversation (g : GlobalState) (session_id : Str) (state : SessionState)
    (userQuery orc1Reply extractReply fallbackReply : Str) : Str × GlobalState :=
  let category := classify orc1Reply
  let state1 := { state with category := some category }
  let g1 := { g with conversation_state := setAssoc g.conversation_state session_id state1 }
  if category == "other".data then
    let (resp, fb1) := fallbackAgentProcess g1.fallback_agent fallbackReply
    (resp, { g1 with fallback_agent := fb1 })
  else
    let state2 := { state1 with current_agent := some category }
    let g2 := { g1 with conversation_state := setAssoc g1.conversation_state session_id state2 }
    let isRefrigerator := category == "refrigerator".data
    let ag := if isRefrigerator then g2.refrigerator_agent else g2.dishwasher_agent
    match applianceProcess ag userQuery extractReply with
    | .error ag1 => (apologyMsg, setApplianceAgent g2 isRefrigerator ag1)
    | .ok (res, ag1) => (res.response, setApplianceAgent g2 isRefrigerator ag1)

/-- `chat_endpoint`: session lookup/creation, then either continuation of
an active dialogue or classification and a fresh start.  The five reply
parameters are the texts the external oracle/handlers would return at each
call site this turn (each used only on the branch that makes that call). -/
def chatEndpoint (g : GlobalState) (sessionId : Option Str) (userQuery : Str)
    (orc1Reply extractReply orc2Reply helpReply fallbackReply : Str) : Str × GlobalState :=
  let session_id := match sessionId with
    | none => "default".data
    | some s => if s.isEmpty then "default".data else s
  let cs0 := match g.conversation_state.lookup session_id with
    | some _ => g.conversation_state
    | none => setAssoc g.conversation_state session_id freshSession
  let state := (cs0.lookup session_id).getD freshSession
  let g0 := { g with conversation_state := cs0 }
  if optTruthy state.current_agent
      && (state.category == some ("refrigerator".data)
        || state.category == some ("dishwasher".data)) then
    continueConversation g0 session_id state userQuery extractReply orc2Reply helpReply
  else
    startConversation g0 session_id state userQuery orc1Reply extractReply fallbackReply

/-! ### Supporting definitions for the theorems -/

instance {e a : Type} [DecidableEq e] [DecidableEq a] : DecidableEq (Except e a) := fun x y =>
  match x, y with
  | .error e1, .error e2 => decidable_of_iff (e1 = e2) (by simp)
  | .error _, .ok _ => isFalse (by simp)
  | .ok v1, .ok v2 => decidable_of_iff (v1 = v2) (by simp)
  | .ok _, .error _ => isFalse (by simp)

/-- The agent state an `ApplianceAgent.process` call leaves behind, whether
it returned or raised. -/
def stateOf : Except AgentState (ProcResult × AgentState) → AgentState
  | .error s => s
  | .ok (_, s) => s

/-- Whether an `ApplianceAgent.process` call returned without raising. -/
def isOkB : Except AgentState (ProcResult × AgentState) → Bool
  | .ok _ => true
  | .error _ => false

/-- The pairing invariant on a conversation history: user and assistant
entries strictly alternate, starting with a user entry, so every user entry
is followed by exactly one assistant entry before the next user entry (a
single trailing user entry is permitted for a turn in progress). -/
def wellPaired : List Msg → Bool
  | [] => true
  | [m] => m.role == userRole
  | m1 :: m2 :: rest => m1.role == userRole && m2.role == assistantRole && wellPaired rest

/-- Help-type resolution as the claim words it: strip only a literal
leading `response:` echo from the lower-cased trimmed reply, then validate
against the closed label set with the part-keyword/`manual` defaulting.
Modelled from the spec's words for comparison with `resolveHelpType`. -/
def specLeadingStripHelpType (help_needed oracleReply : Str) : Str :=
  let ht0 := lower (trim oracleReply)
  let ht1 := trim (if List.isPrefixOf ("response:".data) ht0
    then ht0.drop ("response:".data).length else ht0)
  if validHelpTypes.contains ht1 then ht1
  else if partKeywords.any fun w => hasSub w (lower help_needed) then "parts".data
  else "manual".data

/-- A session in state S2: category bound, identifier validated and stored,
two turns of history. -/
def s2State : AgentState :=
  ⟨"refrigerator".data, some ("WRT111".data),
    [⟨userRole, "my fridge is leaking".data⟩, ⟨assistantRole, "intro".data⟩]⟩

/-- Scenario for the reset claim, turn 1: classification binds
`refrigerator` and the agent asks for the model number. -/
def c3Global1 : GlobalState :=
  (chatEndpoint initGlobal (some ("s1".data)) ("my fridge is leaking".data)
    ("refrigerator".data) [] [] [] []).2

/-- Scenario turn 2: the oracle extracts a valid model number, the services
menu is shown. -/
def c3Global2 : GlobalState :=
  (chatEndpoint c3Global1 (some ("s1".data)) ("model WRT111".data) []
    ("MODEL: WRT111".data) [] [] []).2

/-- Scenario turn 3: extraction completes, Orchestrator2 routes to
`manual`, the help handler replies, and the session is reset. -/
def c3Turn3 : Str × GlobalState :=
  chatEndpoint c3Global2 (some ("s1".data)) ("I need the manual".data) []
    ("MODEL: WRT111\nHELP: manual\nDETAILS: care guide".data) ("manual".data)
    ("Here is your manual link.".data) []

/-- The first turn of the isolation scenario: session A talks to the
refrigerator agent. -/
def c4GlobalA : GlobalState :=
  (chatEndpoint initGlobal (some ("A".data)) ("my fridge is leaking".data)
    ("refrigerator".data) [] [] [] []).2

/-- The same session-B turn, replayed against a fresh server: every
external reply is held fixed across the two worlds. -/
def c4TurnBAlone : Str × GlobalState :=
  chatEndpoint initGlobal (some ("B".data)) ("my fridge smells bad".data)
    ("refrigerator".data) ("no model mentioned".data) [] [] []

/-- The same session-B turn, replayed after session A's turn. -/
def c4TurnBAfterA : Str × GlobalState :=
  chatEndpoint c4GlobalA (some ("B".data)) ("my fridge smells bad".data)
    ("refrigerator".data) ("no model mentioned".data) [] [] []

/-- Pairing scenario, turn 1: first user turn, intro response. -/
def c9Step1 : Except AgentState (ProcResult × AgentState) :=
  applianceProcess ⟨"refrigerator".data, none, []⟩ ("my fridge is leaking".data) []

/-- Pairing scenario, turn 2: the oracle output contains `MODEL:` inside a
line but no line starts with it, so the parse raises after appending the
user message. -/
def c9Step2 : Except AgentState (ProcResult × AgentState) :=
  applianceProcess (stateOf c9Step1) ("model info".data) ("The MODEL: number, please".data)

/-- Pairing scenario, turn 3: a normal turn completing after the raise. -/
def c9Step3 : Except AgentState (ProcResult × AgentState) :=
  applianceProcess (stateOf c9Step2) ("WRT111".data) ("I could not find a model number".data)

/-! ### Helper lemmas -/

lemma validModelTruthy (mn : Str) (h : rejectModel mn = false) : optTruthy (some mn) = true := by
  have h2 : Nat.blt mn.length 4 = false := by
    unfold rejectModel at h
    rw [Bool.or_eq_false_iff, Bool.or_eq_false_iff] at h
    exact h.1.2
  cases mn with
  | nil => exact absurd h2 (by decide)
  | cons c cs => rfl

lemma afterModel_model_number (st1 : AgentState) (q r : Str) :
    (stateOf (afterModel st1 q r)).model_number = st1.model_number := by
  unfold afterModel
  split
  · split
    · rfl
    · split
      · rfl
      · rfl
  · split
    · rfl
    · split
      · split
        · rfl
        · rfl
      · rfl

lemma afterModel_ok_history (st1 : AgentState) (q r : Str) (res : ProcResult) (st2 : AgentState)
    (h : afterModel st1 q r = .ok (res, st2)) :
    st2 = addMsg st1 assistantRole res.response := by
  unfold afterModel at h
  split at h
  · split at h
    · exact absurd h (by simp)
    · split at h
      · exact absurd h (by simp)
      · simp [reply] at h
        obtain ⟨h1, h2⟩ := h
        subst h2; subst h1; rfl
  · split at h
    · simp [reply] at h
      obtain ⟨h1, h2⟩ := h
      subst h2; subst h1; rfl
    · split at h
      · split at h
        · simp [reply] at h
          obtain ⟨h1, h2⟩ := h
          subst h2; subst h1; rfl
        · simp [reply] at h
          obtain ⟨h1, h2⟩ := h
          subst h2; subst h1; rfl
      · simp [reply] at h
        obtain ⟨h1, h2⟩ := h
        subst h2; subst h1; rfl

lemma afterModel_error (st1 : AgentState) (q r : Str) (st2 : AgentState)
    (h : afterModel st1 q r = .error st2) : st2 = st1 := by
  unfold afterModel at h
  split at h
  · split at h
    · simp at h; exact h.symm
    · split at h
      · simp at h; exact h.symm
      · exact absurd h (by simp [reply])
  · split at h
    · exact absurd h (by simp [reply])
    · split at h
      · split at h
        · exact absurd h (by simp [reply])
        · exact absurd h (by simp [reply])
      · exact absurd h (by simp [reply])

/-! ### Claim theorems -/

/-- C1, counterexample to the claim as stated: in state S2 with an oracle
output carrying no HELP-labeled line (no `HELP:` substring, no `MODEL:`
substring), the agent does not apply the keyword matcher to the raw
current-turn text — although the text mentions "part", which the matcher
would resolve to `parts`, the agent re-asks for the model number. -/
theorem c1_counterexample :
    applianceProcess s2State ("I need a part".data) ("Could you clarify what you need?".data) =
      .ok (reply (addMsg s2State userRole ("I need a part".data))
        (askModelMsg ("refrigerator".data)) false none) ∧
    hasSub helpLabel (trim ("Could you clarify what you need?".data)) = false ∧
    keywordMatch ("I need a part".data) =
      some ("parts".data, "Part information and replacement".data) := by
  decide

/-- C1, amended: in state S2 the deterministic keyword matcher runs on the
raw current-turn text exactly when the oracle output contains a valid
MODEL-labeled line and the substring `HELP:` but not the substring
`DETAILS:`; in the stated priority order it either completes the turn with
the matched help type and its fixed detail string, or, when no keyword
matches, re-presents the services menu with the turn not complete and the
identifier (re)stored from the MODEL line. -/
theorem c1_amended (st : AgentState) (q r line mn : Str)
    (h0 : st.conversation_history ≠ [])
    (h1 : hasSub mdlLabel (trim r) = true)
    (h2 : firstLabeledLine mdlLabel (trim r) = some line)
    (h3 : lineValue mdlLabel line = mn)
    (h4 : rejectModel mn = false)
    (h5 : hasSub helpLabel (trim r) = true)
    (h6 : hasSub detLabel (trim r) = false) :
    (keywordMatch q = none →
      applianceProcess st q r =
        .ok (reply { addMsg st userRole q with model_number := some mn }
          servicesMsg2 false none)) ∧
    (∀ hk dk, keywordMatch q = some (hk, dk) →
      applianceProcess st q r =
        .ok (reply { addMsg st userRole q with model_number := some mn }
          (completeMsg (some mn) hk dk) true (some ⟨some mn, hk, dk, st.appliance_type⟩))) := by
  have htr := validModelTruthy mn h4
  constructor
  · intro hk
    simp [applianceProcess, afterModel, addMsg, h0, h1, h2, h3, h4, h5, h6, hk, htr]
  · intro hk dk hkm
    simp [applianceProcess, afterModel, addMsg, h0, h1, h2, h3, h4, h5, h6, hkm, htr]

/-- C1, witness: a concrete S2 turn where the oracle emits a MODEL line and
a `HELP:` substring but no details, and the query keyword `part` completes
the turn as `parts`. -/
theorem c1_amended_witness :
    applianceProcess s2State ("I need a part".data) ("MODEL: WRT111\nHELP: parts".data) =
      .ok (reply { addMsg s2State userRole ("I need a part".data) with
          model_number := some ("WRT111".data) }
        (completeMsg (some ("WRT111".data)) ("parts".data)
          ("Part information and replacement".data)) true
        (some ⟨some ("WRT111".data), "parts".data,
          "Part information and replacement".data, "refrigerator".data⟩)) :=
  (c1_amended s2State ("I need a part".data) ("MODEL: WRT111\nHELP: parts".data)
    ("MODEL: WRT111".data) ("WRT111".data) (by decide) (by decide) (by decide) (by decide)
    (by decide) (by decide) (by decide)).2 _ _ (by decide)

/-- C2: the validation of an extracted model-line value rejects exactly
when the lower-cased value is `n/a`, `unknown`, `none` or empty, or its
length is under 4, or it has no alphanumeric character; a value passing
validation is persisted as the agent's stored model number (also when a
later parse step raises), and a rejected one leaves the turn incomplete
with the fixed re-ask message naming the appliance type. -/
theorem c2_validation :
    (∀ i : Str, rejectModel i = true ↔
      (lower i = "n/a".data ∨ lower i = "unknown".data ∨ lower i = "none".data ∨ lower i = []
        ∨ i.length < 4 ∨ ∀ c ∈ i, isAlnumCh c = false)) ∧
    (∀ (st : AgentState) (q r line : Str), st.conversation_history ≠ [] →
      hasSub mdlLabel (trim r) = true →
      firstLabeledLine mdlLabel (trim r) = some line →
      rejectModel (lineValue mdlLabel line) = false →
      (stateOf (applianceProcess st q r)).model_number = some (lineValue mdlLabel line)) ∧
    (∀ (st : AgentState) (q r line : Str), st.conversation_history ≠ [] →
      hasSub mdlLabel (trim r) = true →
      firstLabeledLine mdlLabel (trim r) = some line →
      rejectModel (lineValue mdlLabel line) = true →
      applianceProcess st q r =
        .ok (reply (addMsg st userRole q) (invalidMsg st.appliance_type) false none)) := by
  refine ⟨?_, ?_, ?_⟩
  · intro i
    unfold rejectModel denylist
    simp [List.elem_iff, Nat.blt_eq, List.any_eq_true]
    tauto
  · intro st q r line h0 h1 h2 h4
    by_cases hh : hasSub helpLabel (trim r) = true
    · simp [applianceProcess, addMsg, h0, h1, h2, h4, hh, afterModel_model_number]
    · simp only [Bool.not_eq_true] at hh
      simp [applianceProcess, addMsg, stateOf, reply, h0, h1, h2, h4, hh]
  · intro st q r line h0 h1 h2 h4
    simp [applianceProcess, addMsg, h0, h1, h2, h4]

/-- C2, witness: the value `WRT111` on a MODEL line passes validation and
is persisted as the session's identifier. -/
theorem c2_validation_witness :
    (stateOf (applianceProcess ⟨"refrigerator".data, none, [⟨userRole, "hi".data⟩]⟩
      ("model WRT111".data) ("MODEL: WRT111".data))).model_number =
      some (lineValue mdlLabel ("MODEL: WRT111".data)) :=
  c2_validation.2.1 ⟨"refrigerator".data, none, [⟨userRole, "hi".data⟩]⟩
    ("model WRT111".data) ("MODEL: WRT111".data) ("MODEL: WRT111".data)
    (by decide) (by decide) (by decide) (by decide)

/-- C3: after a successfully dispatched routing decision the session dict
is reset (category, identifier and pending help type all absent), but the
conversation history replayed into text-generation calls — kept on the
shared agent singleton, the `turns` of the claim — is NOT empty for the
next turn, and the agent's stored model number also survives the reset. -/
theorem c3_reset_keeps_agent_history :
    c3Turn3.1 = "Here is your manual link.".data ++ closingSuffix ∧
    c3Turn3.2.conversation_state.lookup ("s1".data) = some freshSession ∧
    c3Turn3.2.refrigerator_agent.conversation_history ≠ [] ∧
    c3Turn3.2.refrigerator_agent.model_number = some ("WRT111".data) := by
  decide

/-- C4: handling a turn for session A changes the response session B gets
for the identical turn with identical external replies — the singleton
appliance agents share one conversation history across all session keys,
so B receives the first-turn intro message only when A has not gone first. -/
theorem c4_cross_session_interference :
    c4TurnBAlone.1 = introMsg ("refrigerator".data) ∧
    c4TurnBAfterA.1 = askModelMsg ("refrigerator".data) ∧
    c4TurnBAlone.1 ≠ c4TurnBAfterA.1 := by
  decide

/-- C5, counterexample to the claim as stated: the code deletes every
`response:` occurrence from the reply, not only a literal leading echo, so
the reply `parts response:` resolves to `parts`, while stripping only a
leading echo would leave an invalid label and default to `manual` (the
help-intent text `book` has no part keyword). -/
theorem c5_counterexample :
    o2HelpTypeOf (orchestrator2Process ("ABC123".data) ("book".data) [] ("refrigerator".data)
      ("parts response:".data)) = some ("parts".data) ∧
    specLeadingStripHelpType ("book".data) ("parts response:".data) = "manual".data ∧
    ("parts".data : Str) ≠ "manual".data := by
  decide

/-- C5, amended: on non-empty identifier and help intent, the routing
decision deletes every occurrence of `response:` from the lower-cased
trimmed reply and re-trims; a cleaned reply in the closed label set becomes
the handler key, and otherwise the key defaults to `parts` when the raw
help-intent text contains a part keyword and to `manual` otherwise — so
`decide` always returns one of the four handler keys. -/
theorem c5_amended (mn hn d ap orcReply : Str)
    (h1 : mn.isEmpty = false) (h2 : hn.isEmpty = false) :
    orchestrator2Process mn hn d ap orcReply =
      .routed ⟨resolveHelpType hn orcReply, createModelUrl mn, hn, d, mn, ap⟩ ∧
    validHelpTypes.contains (resolveHelpType hn orcReply) = true ∧
    resolveHelpType hn orcReply =
      (if validHelpTypes.contains (trim (replaceSub (lower (trim orcReply)) ("response:".data) []))
       then trim (replaceSub (lower (trim orcReply)) ("response:".data) [])
       else if partKeywords.any fun w => hasSub w (lower hn) then "parts".data
       else "manual".data) := by
  refine ⟨?_, ?_, rfl⟩
  · simp [orchestrator2Process, h1, h2]
  · simp only [resolveHelpType]
    split_ifs with ha hb
    · exact ha
    · decide
    · decide

/-- C5, witness: non-empty inputs with an unrecognized oracle label and a
`filter` keyword in the help-intent text route to `parts`. -/
theorem c5_amended_witness :
    orchestrator2Process ("WRT111".data) ("need a filter".data) ("d".data)
      ("refrigerator".data) ("something else".data) =
      .routed ⟨resolveHelpType ("need a filter".data) ("something else".data),
        createModelUrl ("WRT111".data), "need a filter".data, "d".data, "WRT111".data,
        "refrigerator".data⟩ :=
  (c5_amended ("WRT111".data) ("need a filter".data) ("d".data) ("refrigerator".data)
    ("something else".data) (by decide) (by decide)).1

/-- C6, counterexample to the claim as stated: the classifier strips
whitespace before matching, so the reply `" refrigerator"` — not an exact
case-insensitive match for the label — still yields `refrigerator`. -/
theorem c6_counterexample :
    classify (" refrigerator".data) = "refrigerator".data ∧
    lower (" refrigerator".data) ≠ "refrigerator".data := by
  decide

/-- C6, amended: the classify operation returns `refrigerator` or
`dishwasher` exactly when the reply, after trimming surrounding whitespace,
matches that label case-insensitively, and every reply yields one of
`refrigerator`, `dishwasher`, `other` — no raw label is propagated. -/
theorem c6_amended (r : Str) :
    (classify r = "refrigerator".data ↔ lower (trim r) = "refrigerator".data) ∧
    (classify r = "dishwasher".data ↔ lower (trim r) = "dishwasher".data) ∧
    (classify r = "refrigerator".data ∨ classify r = "dishwasher".data
      ∨ classify r = "other".data) := by
  simp only [classify]
  by_cases hmem : validCategories.contains (lower (trim r)) = true
  · rw [if_pos hmem]
    have hm : lower (trim r) ∈ validCategories := List.elem_iff.1 hmem
    simp only [validCategories, List.mem_cons, List.mem_singleton] at hm
    rcases hm with e | e | e | e
    · rw [e]; exact ⟨by simp, by simp [e], Or.inl rfl⟩
    · rw [e]; exact ⟨by simp [e], by simp, Or.inr (Or.inl rfl)⟩
    · rw [e]; exact ⟨by simp [e], by simp [e], Or.inr (Or.inr rfl)⟩
    · cases e
  · rw [if_neg hmem]
    have hnm : lower (trim r) ∉ validCategories := fun hc => hmem (List.elem_iff.2 hc)
    refine ⟨⟨fun he => absurd he (by decide), fun he => ?_⟩,
      ⟨fun he => absurd he (by decide), fun he => ?_⟩, Or.inr (Or.inr rfl)⟩
    · rw [he] at hnm
      exact absurd (by decide) hnm
    · rw [he] at hnm
      exact absurd (by decide) hnm

/-- C7, counterexample to the claim as stated: when the label string
`MODEL:` occurs inside a line but no line starts with it, the parse raises
(the `[0]` index on an empty list), exactly the scenario the claim says is
safe. -/
theorem c7_counterexample :
    applianceProcess s2State ("some question".data) ("The MODEL: ABC123".data) =
      .error (addMsg s2State userRole ("some question".data)) := by
  decide

/-- C7, amended: label parsing treats a label as absent (and does not
raise) when the label string does not occur in the oracle output at all —
with no `MODEL:` substring the agent simply re-asks for the model number.
It is not total, however: the parse raises exactly at the three `[0]`
index sites — when `MODEL:` occurs in the output with no line starting
with it, and, after a valid MODEL line, when all three label strings occur
as substrings but no line starts with `HELP:`, or none with `DETAILS:`.
When `DETAILS:` does not occur in the output the turn returns normally
even if `HELP:` occurs only inside a line, because the three-substring
gate fails. -/
theorem c7_amended (st : AgentState) (q r : Str) (h0 : st.conversation_history ≠ []) :
    (hasSub mdlLabel (trim r) = false →
      applianceProcess st q r =
        .ok (reply (addMsg st userRole q) (askModelMsg st.appliance_type) false none)) ∧
    (hasSub mdlLabel (trim r) = true → firstLabeledLine mdlLabel (trim r) = none →
      applianceProcess st q r = .error (addMsg st userRole q)) ∧
    (∀ line, firstLabeledLine mdlLabel (trim r) = some line →
      rejectModel (lineValue mdlLabel line) = false →
      hasSub mdlLabel (trim r) = true →
      hasSub helpLabel (trim r) = true →
      hasSub detLabel (trim r) = true →
      firstLabeledLine helpLabel (trim r) = none →
      applianceProcess st q r =
        .error { addMsg st userRole q with model_number := some (lineValue mdlLabel line) }) ∧
    (∀ line hl, firstLabeledLine mdlLabel (trim r) = some line →
      rejectModel (lineValue mdlLabel line) = false →
      hasSub mdlLabel (trim r) = true →
      hasSub helpLabel (trim r) = true →
      hasSub detLabel (trim r) = true →
      firstLabeledLine helpLabel (trim r) = some hl →
      firstLabeledLine detLabel (trim r) = none →
      applianceProcess st q r =
        .error { addMsg st userRole q with model_number := some (lineValue mdlLabel line) }) ∧
    (∀ line, firstLabeledLine mdlLabel (trim r) = some line →
      rejectModel (lineValue mdlLabel line) = false →
      hasSub mdlLabel (trim r) = true →
      hasSub detLabel (trim r) = false →
      isOkB (applianceProcess st q r) = true) := by
  refine ⟨?_, ?_, ?_, ?_, ?_⟩
  · intro h1
    simp [applianceProcess, afterModel, addMsg, h0, h1]
  · intro h1 h2
    simp [applianceProcess, addMsg, h0, h1, h2]
  · intro line hline hrej hmdl hhelp hdet hhnone
    simp [applianceProcess, afterModel, addMsg, h0, hline, hrej, hmdl, hhelp, hdet, hhnone]
  · intro line hl hline hrej hmdl hhelp hdet hhsome hdnone
    simp [applianceProcess, afterModel, addMsg, h0, hline, hrej, hmdl, hhelp, hdet, hhsome,
      hdnone]
  · intro line hline hrej hmdl hdet
    have htr := validModelTruthy (lineValue mdlLabel line) hrej
    by_cases hh : hasSub helpLabel (trim r) = true
    · cases hkm : keywordMatch q with
      | none =>
        simp [applianceProcess, afterModel, addMsg, h0, hline, hrej, hmdl, hdet, hh, htr, hkm,
          isOkB]
      | some p =>
        simp [applianceProcess, afterModel, addMsg, h0, hline, hrej, hmdl, hdet, hh, htr, hkm,
          isOkB]
    · simp only [Bool.not_eq_true] at hh
      simp [applianceProcess, addMsg, h0, hline, hrej, hmdl, hh, isOkB]

/-- C7, witness: an oracle output with no `MODEL:` substring is handled
without raising (the field treated as absent), while an output in which
all three labels occur but no line starts with `HELP:` raises after
storing the valid model number. -/
theorem c7_amended_witness :
    (applianceProcess s2State ("hello".data) ("Which appliance is it?".data) =
      .ok (reply (addMsg s2State userRole ("hello".data))
        (askModelMsg ("refrigerator".data)) false none)) ∧
    (applianceProcess s2State ("pick".data) ("MODEL: ABC1\nblah HELP: x\nsee DETAILS: y".data) =
      .error { addMsg s2State userRole ("pick".data) with
        model_number := some (lineValue mdlLabel ("MODEL: ABC1".data)) }) :=
  ⟨(c7_amended s2State ("hello".data) ("Which appliance is it?".data) (by decide)).1 (by decide),
   (c7_amended s2State ("pick".data) ("MODEL: ABC1\nblah HELP: x\nsee DETAILS: y".data)
      (by decide)).2.2.1 ("MODEL: ABC1".data) (by decide) (by decide) (by decide) (by decide)
      (by decide) (by decide)⟩

/-- C8, counterexample to the claim as stated: on a session with no bound
category, `fallback_agent.FallbackAgent.process` returns a fixed
redirection message naming the two supported categories and makes zero
text-generation calls, whereas the claim says this branch invokes the
text-generation capability on the raw query. -/
theorem c8_counterexample :
    (fb2Process [] ("default".data)
      ⟨"what is the weather".data, some none, some none⟩).1 =
      ⟨fb2RedirectMsg, none, none, none, 0⟩ ∧
    ¬ (1 ≤ (fb2Process [] ("default".data)
      ⟨"what is the weather".data, some none, some none⟩).1.llmCalls) := by
  decide

/-- C8, amended: with both a bound category and a model number the handler
re-emits the per-category services menu, with a category but no model
number it re-asks for the identifier, and with no bound category it
returns a fixed redirection message naming the two supported appliance
categories — and no branch invokes the text-generation capability. -/
theorem c8_amended (states : List (Str × ConvState)) (sid : Str) (inp : Fb2Input) :
    (optTruthy (fb2Merged states sid inp).appliance_type = true →
      optTruthy (fb2Merged states sid inp).model_number = true →
      (fb2Process states sid inp).1 =
        ⟨fb2Menu (optStr (fb2Merged states sid inp).appliance_type),
          (fb2Merged states sid inp).appliance_type, (fb2Merged states sid inp).model_number,
          some (fb2Menu (optStr (fb2Merged states sid inp).appliance_type)), 0⟩) ∧
    (optTruthy (fb2Merged states sid inp).appliance_type = true →
      optTruthy (fb2Merged states sid inp).model_number = false →
      (fb2Process states sid inp).1 =
        ⟨fb2AskModelMsg, (fb2Merged states sid inp).appliance_type, none, none, 0⟩) ∧
    (optTruthy (fb2Merged states sid inp).appliance_type = false →
      (fb2Process states sid inp).1 = ⟨fb2RedirectMsg, none, none, none, 0⟩) := by
  refine ⟨?_, ?_, ?_⟩
  · intro ha hm
    simp [fb2Process, ha, hm]
  · intro ha hm
    simp [fb2Process, ha, hm]
  · intro ha
    simp [fb2Process, ha]

/-- C8, witness: with a bound category and model number the cached menu is
re-emitted with zero text-generation calls. -/
theorem c8_amended_witness :
    (fb2Process [] ("k".data)
      ⟨"pick one".data, some (some ("refrigerator".data)), some (some ("WRT111".data))⟩).1 =
      ⟨fb2Menu ("refrigerator".data), some ("refrigerator".data), some ("WRT111".data),
        some (fb2Menu ("refrigerator".data)), 0⟩ :=
  (c8_amended [] ("k".data)
    ⟨"pick one".data, some (some ("refrigerator".data)), some (some ("WRT111".data))⟩).1
    (by decide) (by decide)

/-- C9, counterexample to the claim as stated: a turn whose parse raises
appends its user message with no assistant message, so after the next
completed turn (turn 3 below returns normally) the turns sequence holds a
user entry not paired with an assistant entry before the next user entry. -/
theorem c9_counterexample :
    isOkB c9Step1 = true ∧
    isOkB c9Step2 = false ∧
    isOkB c9Step3 = true ∧
    wellPaired (stateOf c9Step3).conversation_history = false := by
  decide

/-- C9, amended: every normally-returning branch of the per-turn
processing appends exactly one assistant message — the returned response —
right after the turn's user message, while a raising turn appends the user
message alone. -/
theorem c9_amended (st : AgentState) (q r : Str) :
    (∀ res st', applianceProcess st q r = .ok (res, st') →
      st'.conversation_history =
        st.conversation_history ++ [⟨userRole, q⟩, ⟨assistantRole, res.response⟩]) ∧
    (∀ st', applianceProcess st q r = .error st' →
      st'.conversation_history = st.conversation_history ++ [⟨userRole, q⟩]) := by
  constructor
  · intro res st' h
    unfold applianceProcess at h
    simp only [] at h
    split at h
    · simp [reply] at h
      obtain ⟨h1, h2⟩ := h
      subst h2; subst h1
      simp [addMsg]
    · split at h
      · split at h
        · exact absurd h (by simp)
        · split at h
          · simp [reply] at h
            obtain ⟨h1, h2⟩ := h
            subst h2; subst h1
            simp [addMsg]
          · split at h
            · have := afterModel_ok_history _ _ _ _ _ h
              subst this
              simp [addMsg]
            · simp [reply] at h
              obtain ⟨h1, h2⟩ := h
              subst h2; subst h1
              simp [addMsg]
      · have := afterModel_ok_history _ _ _ _ _ h
        subst this
        simp [addMsg]
  · intro st' h
    unfold applianceProcess at h
    simp only [] at h
    split at h
    · exact absurd h (by simp [reply])
    · split at h
      · split at h
        · simp at h
          subst h
          simp [addMsg]
        · split at h
          · exact absurd h (by simp [reply])
          · split at h
            · have := afterModel_error _ _ _ _ h
              subst this
              simp [addMsg]
            · exact absurd h (by simp [reply])
      · have := afterModel_error _ _ _ _ h
        subst this
        simp [addMsg]

/-- C9, witness: the first turn appends its user message and exactly one
assistant message (the intro response). -/
theorem c9_amended_witness :
    (AgentState.mk ("refrigerator".data) none
        [⟨userRole, "hi".data⟩, ⟨assistantRole, introMsg ("refrigerator".data)⟩]).conversation_history =
      ([] : List Msg) ++ [⟨userRole, "hi".data⟩,
        ⟨assistantRole, (ProcResult.mk (introMsg ("refrigerator".data)) false none).response⟩] :=
  (c9_amended ⟨"refrigerator".data, none, []⟩ ("hi".data) []).1
    ⟨introMsg ("refrigerator".data), false, none⟩ _ (by decide)

/-- C10: the completion payload does not restrict the help intent to the
four handler categories — a `HELP: diagram` line (a label both extraction
prompts mention) completes with help intent `diagram`, outside the closed
set — and only the routing decision step coerces it into the set (here to
`manual`, since `diagram` carries no part keyword). -/
theorem c10_open_help_intent :
    applianceProcess ⟨"refrigerator".data, none,
        [⟨userRole, "hi".data⟩, ⟨assistantRole, "welcome".data⟩]⟩
      ("I want the diagram".data)
      ("MODEL: ABC123\nHELP: diagram\nDETAILS: wiring diagram".data) =
      .ok (reply ⟨"refrigerator".data, some ("ABC123".data),
          [⟨userRole, "hi".data⟩, ⟨assistantRole, "welcome".data⟩,
            ⟨userRole, "I want the diagram".data⟩]⟩
        (completeMsg (some ("ABC123".data)) ("diagram".data) ("wiring diagram".data)) true
        (some ⟨some ("ABC123".data), "diagram".data, "wiring diagram".data,
          "refrigerator".data⟩)) ∧
    validHelpTypes.contains ("diagram".data) = false ∧
    o2HelpTypeOf (orchestrator2Process ("ABC123".data) ("diagram".data)
      ("wiring diagram".data) ("refrigerator".data) ("diagram".data)) =
      some ("manual".data) := by
  decide
